import Mathlib

/-!
Verification development for the eh_downloader crawl-and-download pipeline
(src/main.rs, src/config.rs, src/gallery.rs).

The program's stateful, effectful parts are embedded shallowly: the network
is an oracle `net : Nat → NetResult` answering the k-th request the process
issues, the filesystem is the list of existing file paths, and every issued
request is recorded in a trace together with the client it went through.
HTML parsing is the collaborator boundary: a fetched document is modelled by
what the program's five CSS queries return on it (`PageBody`), and URL
parsing (the `url` crate) is an oracle `parse : String → Option String`
returning the parsed absolute URL in string form.
-/

namespace EhDl

/-- Run configuration, mirroring `Config` in src/config.rs (fields
`cookie`, `concurrency : i64`, `original`, `proxy`, `input`, `output`). -/
structure Config where
  cookie : String
  concurrency : Int
  original : Bool
  proxy : Option String
  input : String
  output : String
  deriving DecidableEq, Repr


/-- The reqwest client as far as the model observes it. -/
structure Client where
  followRedirects : Bool
  hasProxy : Bool
  deriving DecidableEq, Repr


/-- `init` in src/main.rs: the one shared client is built with
`redirect(reqwest::redirect::Policy::none())`, i.e. automatic redirect
following disabled, and an optional proxy. -/
def initClient (cfg : Config) : Client :=
  { followRedirects := false, hasProxy := cfg.proxy.isSome }


/-- The five call sites that issue HTTP requests in the program. -/
inductive StepTag where
  | titlePage   -- Gallery::fetch_info, gallery page
  | pagination  -- Gallery::fetch_images loop, listing pages
  | itemPage    -- download: item page fetch (asset resolution)
  | probe       -- download: original-mode redirect probe
  | asset       -- download: asset byte fetch (the download step)
  deriving DecidableEq, Repr


/-- One issued HTTP request, stamped with the client it went through. -/
structure Request where
  url : String
  tag : StepTag
  viaClient : Client
  followRedirects : Bool
  deriving DecidableEq, Repr


/-- What the HTML collaborator (`scraper`) reports about a fetched document:
the results of the five CSS queries the program runs against it. -/
structure PageBody where
  titleGn : Option String            -- "#gn" inner_html
  itemLinks : List (Option String)   -- "#gdt a" href attributes, document order
  nextPage : Option (Option String)  -- next-page anchor and its href, if the element exists
  previewSrc : Option String         -- "div#i3 a img" src attribute
  originalHref : Option String       -- "div#i6 div:last-child a" href attribute
  deriving DecidableEq, Repr


/-- The network oracle's answer to one request: a transport error on send,
or a response carrying a status code, an optional `Location` header, whether
reading the body as text succeeds, the parsed document, and whether reading
the body as bytes succeeds. -/
inductive NetResult where
  | sendErr
  | resp (status : Nat) (location : Option String) (textOk : Bool)
      (body : PageBody) (bytesOk : Bool)
  deriving DecidableEq, Repr


/-- Threaded run state: the process-wide request counter (the oracle is
indexed by it), the set of file paths that exist on disk, and the trace of
issued requests. -/
structure St where
  calls : Nat
  fs : List String
  trace : List Request
  deriving DecidableEq, Repr


/-- Issue one GET through client `c`; the oracle answers by request number. -/
def fetchVia (c : Client) (net : Nat → NetResult) (url : String)
    (tag : StepTag) (s : St) : NetResult × St :=
  (net s.calls,
   { calls := s.calls + 1, fs := s.fs,
     trace := s.trace ++ [⟨url, tag, c, c.followRedirects⟩] })


/-- reqwest `StatusCode::is_success`: 200..=299. -/
def statusIsSuccess (st : Nat) : Bool := 200 ≤ st && st ≤ 299


/-- reqwest `StatusCode::is_redirection`: 300..=399. -/
def statusIsRedirection (st : Nat) : Bool := 300 ≤ st && st ≤ 399


/-- Rust `Vec::insert(index, e)`; `none` models the panic raised when
`index > len`. -/
def insertAt : List α → Nat → α → Option (List α)
  | xs, 0, a => some (a :: xs)
  | [], _ + 1, _ => none
  | x :: xs, n + 1, a => (insertAt xs n a).map (x :: ·)


/-- The per-page item-link loop of `Gallery::fetch_images`: enumerate the
"#gdt a" elements; an element without `href`, or whose `href` fails URL
parsing, is skipped (the enumeration index still advances); each parsed URL
is `Vec::insert`ed into the accumulated image list at the element's index
within the current page. -/
def processLinks (parse : String → Option String) :
    Nat → List (Option String) → List String → Option (List String)
  | _, [], imgs => some imgs
  | i, none :: rest, imgs => processLinks parse (i + 1) rest imgs
  | i, some h :: rest, imgs =>
    match parse h with
    | none => processLinks parse (i + 1) rest imgs
    | some u =>
      match insertAt imgs i u with
      | none => none
      | some imgs2 => processLinks parse (i + 1) rest imgs2


/-- Outcome of `Gallery::fetch_images`. -/
inductive CrawlResult where
  | ok (images : List String)
  | fetchErr   -- a `?` failure on send or text, propagated to the caller
  | panicked   -- Vec::insert index out of bounds
  | fuelOut    -- model artifact: page-following fuel exhausted
  deriving DecidableEq, Repr


/-- The `loop` of `Gallery::fetch_images`: fetch the current listing page
(its status is never checked), run the item-link loop, then follow the
next-page anchor if one with an `href` exists, otherwise stop. -/
def fetchImagesLoop (c : Client) (net : Nat → NetResult)
    (parse : String → Option String) :
    Nat → String → List String → St → CrawlResult × St
  | 0, _, _, s => (.fuelOut, s)
  | fuel + 1, url, imgs, s =>
    match fetchVia c net url .pagination s with
    | (.sendErr, s1) => (.fetchErr, s1)
    | (.resp _ _ textOk body _, s1) =>
      if !textOk then (.fetchErr, s1)
      else
        match processLinks parse 0 body.itemLinks imgs with
        | none => (.panicked, s1)
        | some imgs2 =>
          match body.nextPage with
          | none => (.ok imgs2, s1)
          | some none => (.ok imgs2, s1)
          | some (some href) => fetchImagesLoop c net parse fuel href imgs2 s1


/-- `Gallery::fetch_images`, starting from the gallery URL with the
gallery's (empty) image list. -/
def fetchImages (c : Client) (net : Nat → NetResult)
    (parse : String → Option String) (fuel : Nat) (galleryUrl : String)
    (s : St) : CrawlResult × St :=
  fetchImagesLoop c net parse fuel galleryUrl [] s


/-- Outcome of `Gallery::fetch_info`. -/
inductive InfoResult where
  | ok (title : String)
  | errFetch    -- a `?` failure on send or text
  | errStatus   -- non-success status bail
  | errNoTitle  -- "#gn" element missing
  deriving DecidableEq, Repr


/-- `Gallery::fetch_info`: fetch the gallery page, bail on a non-success
status, then read the "#gn" element's inner html as the title. -/
def fetchInfo (c : Client) (net : Nat → NetResult) (url : String) (s : St) :
    InfoResult × St :=
  match fetchVia c net url .titlePage s with
  | (.sendErr, s1) => (.errFetch, s1)
  | (.resp status _ textOk body _, s1) =>
    if !statusIsSuccess status then (.errStatus, s1)
    else if !textOk then (.errFetch, s1)
    else
      match body.titleGn with
      | some t => (.ok t, s1)
      | none => (.errNoTitle, s1)


/-- The characters `Gallery::download` strips from the title before using it
as a path segment. -/
def illegalChars : List Char := ['/', '\\', ':', '*', '?', '"', '<', '>', '|']


/-- `self.title.replace([...], "")` in `Gallery::download`. -/
def sanitizeTitle (t : String) : String :=
  ⟨t.data.filter (fun ch => !(illegalChars.contains ch))⟩


/-- `image_url.rsplit('.').next().unwrap_or("jpg")`: the segment after the
last `.`, i.e. the whole string when it holds no `.`; `rsplit` always yields
at least one segment, so the `"jpg"` default is unreachable in the source. -/
def extOf (u : String) : String :=
  ⟨(u.data.reverse.takeWhile (fun ch => !decide (ch = '.'))).reverse⟩


/-- Rust `Path::exists` over the modelled filesystem. -/
def fsHas (fs : List String) (p : String) : Bool :=
  fs.any (fun q => decide (q = p))


/-- The output path `{output}/{title}/{index+1}.{ext}` built in `download`. -/
def filePathOf (cfg : Config) (title : String) (index : Nat) (ext : String) :
    String :=
  cfg.output ++ "/" ++ title ++ "/" ++ toString (index + 1) ++ "." ++ ext


/-- How one asset-resolution pass of `download` (src/gallery.rs) ends. -/
inductive ResolveResult where
  | panicked                  -- `.expect("Failed to send request")` on the item-page fetch
  | errored                   -- a `?` failure, or the "No image found" bail
  | resolved (imageUrl : String)
  deriving DecidableEq, Repr


/-- The resolution part of `download` in src/gallery.rs: fetch the item page
(transport error panics via `expect`; a non-success status is only logged);
take the preview image `src`; in original mode, if the "original" anchor
exists take its `href` and probe it, replacing the URL by the `Location`
header when the probe answers a redirection; bail if the resulting URL is
empty. -/
def resolveStep (cfg : Config) (c : Client) (net : Nat → NetResult)
    (url : String) (s : St) : ResolveResult × St :=
  match fetchVia c net url .itemPage s with
  | (.sendErr, s1) => (.panicked, s1)
  | (.resp _ _ textOk body _, s1) =>
    if !textOk then (.errored, s1)
    else
      let preview := body.previewSrc.getD ""
      if cfg.original then
        match body.originalHref with
        | some href =>
          match fetchVia c net href .probe s1 with
          | (.sendErr, s2) => (.errored, s2)
          | (.resp pstatus ploc _ _ _, s2) =>
            let finalUrl :=
              if statusIsRedirection pstatus then
                match ploc with
                | some loc => loc
                | none => href
              else href
            if finalUrl = "" then (.errored, s2) else (.resolved finalUrl, s2)
        | none =>
          if preview = "" then (.errored, s1) else (.resolved preview, s1)
      else
        if preview = "" then (.errored, s1) else (.resolved preview, s1)


/-- How one attempt of the `download` function ends. -/
inductive AttemptResult where
  | okSkipped     -- returned Ok at the file-exists check
  | okDownloaded  -- returned Ok after writing the file
  | errored       -- returned Err (retried by the retry wrapper)
  | panicked      -- panicked (not retried; propagates)
  deriving DecidableEq, Repr


/-- One attempt of the free function `download` in src/gallery.rs: resolve
the asset URL, compute the output path, return Ok early if the file already
exists, otherwise fetch the asset bytes; `File::create` places the file at
the final output path before the body bytes are read, so a failing body
read leaves the (empty) file in place. -/
def downloadOnce (cfg : Config) (c : Client) (net : Nat → NetResult)
    (index : Nat) (title : String) (url : String) (s : St) :
    AttemptResult × St :=
  match resolveStep cfg c net url s with
  | (.panicked, s1) => (.panicked, s1)
  | (.errored, s1) => (.errored, s1)
  | (.resolved imageUrl, s1) =>
    let path := filePathOf cfg title index (extOf imageUrl)
    if fsHas s1.fs path then (.okSkipped, s1)
    else
      match fetchVia c net imageUrl .asset s1 with
      | (.sendErr, s2) => (.errored, s2)
      | (.resp status _ _ _ bytesOk, s2) =>
        if !statusIsSuccess status then (.errored, s2)
        else
          let s3 : St := { calls := s2.calls, fs := path :: s2.fs, trace := s2.trace }
          if !bytesOk then (.errored, s3)
          else (.okDownloaded, s3)


/-- The `#[retry(stop = attempts(3))]` wrapper on `download`: the whole
function body is re-run on an Err result, up to 3 attempts total; Ok results
and panics pass through. -/
def downloadRetry (cfg : Config) (c : Client) (net : Nat → NetResult)
    (index : Nat) (title : String) (url : String) (s : St) :
    AttemptResult × St :=
  match downloadOnce cfg c net index title url s with
  | (.errored, s1) =>
    match downloadOnce cfg c net index title url s1 with
    | (.errored, s2) => downloadOnce cfg c net index title url s2
    | r => r
  | r => r


/-- Per-item outcome as observed at the spawn site in `Gallery::download`. -/
inductive ItemOutcome where
  | succeeded
  | skipped
  | failed     -- Err result, logged by unwrap_or_else and swallowed
  | panicked   -- task panic; JoinSet::join_all re-panics
  deriving DecidableEq, Repr


/-- Classification of one task's result at the spawn site. -/
def outcomeOf : AttemptResult → ItemOutcome
  | .okSkipped => .skipped
  | .okDownloaded => .succeeded
  | .errored => .failed
  | .panicked => .panicked


/-- The per-item task loop of `Gallery::download`, in spawn order: every
spawned task runs (the tasks are all spawned before `join_all`); shared
state is threaded through in that order. -/
def runItems (cfg : Config) (c : Client) (net : Nat → NetResult)
    (title : String) : Nat → List String → St → List ItemOutcome × St
  | _, [], s => ([], s)
  | index, url :: rest, s =>
    match downloadRetry cfg c net index title url s with
    | (r, s1) =>
      match runItems cfg c net title (index + 1) rest s1 with
      | (outs, s2) => (outcomeOf r :: outs, s2)


/-- How `Gallery::download` ends for one gallery. -/
inductive GalleryResult where
  | infoErr                                -- fetch_info failed: logged, return
  | imagesErr                              -- fetch_images failed: logged, return
  | crawlPanicked                          -- fetch_images panicked: propagates
  | panicked (outcomes : List ItemOutcome) -- some task panicked: join_all re-panics
  | completed (outcomes : List ItemOutcome)
  | outOfFuel                              -- model artifact
  deriving DecidableEq, Repr


/-- `Gallery::download`: fetch info (on error, log and return), fetch the
image list (on error, log and return), then spawn one download task per
image and join them all; a panicking task makes `join_all` panic. -/
def galleryDownload (cfg : Config) (c : Client) (net : Nat → NetResult)
    (parse : String → Option String) (fuel : Nat) (galleryUrl : String)
    (s : St) : GalleryResult × St :=
  match fetchInfo c net galleryUrl s with
  | (.ok title0, s1) =>
    match fetchImages c net parse fuel galleryUrl s1 with
    | (.ok images, s2) =>
      match runItems cfg c net (sanitizeTitle title0) 0 images s2 with
      | (outs, s3) =>
        if outs.contains .panicked then (.panicked outs, s3)
        else (.completed outs, s3)
    | (.fetchErr, s2) => (.imagesErr, s2)
    | (.panicked, s2) => (.crawlPanicked, s2)
    | (.fuelOut, s2) => (.outOfFuel, s2)
  | (_, s1) => (.infoErr, s1)


/-- Whether a gallery result is a panic that propagates out of
`Gallery::download` and aborts the process. -/
def isPanic : GalleryResult → Bool
  | .crawlPanicked => true
  | .panicked _ => true
  | _ => false


/-- How the gallery loop of `main` ends. -/
inductive RunResult where
  | finished (galleries : List GalleryResult)  -- main returns Ok(()), exit 0
  | aborted (processed : List GalleryResult)   -- a panic aborted the process
  deriving DecidableEq, Repr


/-- The gallery loop of `main` (src/main.rs): galleries are driven strictly
sequentially; a panic propagating from `Gallery::download` aborts the
process, otherwise the loop continues and main returns Ok(()). -/
def runGalleries (cfg : Config) (c : Client) (net : Nat → NetResult)
    (parse : String → Option String) (fuel : Nat) :
    List String → St → RunResult × St
  | [], s => (.finished [], s)
  | g :: rest, s =>
    match galleryDownload cfg c net parse fuel g s with
    | (res, s1) =>
      if isPanic res then (.aborted [res], s1)
      else
        match runGalleries cfg c net parse fuel rest s1 with
        | (.finished l, s2) => (.finished (res :: l), s2)
        | (.aborted l, s2) => (.aborted (res :: l), s2)


/-- Process exit status of the gallery loop: `main` returns Ok(()) (exit 0)
when the loop finishes; a panic aborts the process with a non-zero status. -/
def exitCode : RunResult → Nat
  | .finished _ => 0
  | .aborted _ => 101


/-- `Config::get_links` (src/config.rs): one URL per input line, lines that
fail URL parsing silently dropped. -/
def getLinks (parse : String → Option String) (lines : List String) :
    List String :=
  lines.filterMap parse


/-! Concrete fixtures for evaluations. -/

/-- A concrete configuration (preview mode). -/
def cfg0 : Config :=
  { cookie := "ck", concurrency := 2, original := false, proxy := none,
    input := "in.txt", output := "out" }


/-- The concrete configuration in original mode. -/
def cfg1 : Config := { cfg0 with original := true }


/-- Initial run state: no requests issued, empty disk. -/
def st0 : St := { calls := 0, fs := [], trace := [] }


/-- URL parser oracle on which every string parses. -/
def parseAll : String → Option String := fun s => some s


/-- A document on which every query comes back empty. -/
def emptyPage : PageBody :=
  { titleGn := none, itemLinks := [], nextPage := none, previewSrc := none,
    originalHref := none }


/-- An item page whose preview image is `https://img.h/x.jpg`. -/
def previewBody : PageBody :=
  { emptyPage with previewSrc := some "https://img.h/x.jpg" }


/-! Claim C1. -/

/-- Network for C1: listing page 1 with one item and a next-page link, then
listing page 2 with one item and no next-page link. -/
def c1Net : Nat → NetResult
  | 0 => .resp 200 none true
      { emptyPage with itemLinks := [some "https://e.x/a1"],
                       nextPage := some (some "https://e.x/p2") } true
  | 1 => .resp 200 none true
      { emptyPage with itemLinks := [some "https://e.x/a2"],
                       nextPage := none } true
  | _ => .sendErr


/-! Claim C6. -/

/-- Network for C6: one listing page whose first "#gdt a" href is malformed
and whose second is well-formed. -/
def c6Net : Nat → NetResult
  | 0 => .resp 200 none true
      { emptyPage with itemLinks := [some "bad", some "https://e.x/ok"],
                       nextPage := none } true
  | _ => .sendErr


/-- URL parser on which exactly the string "bad" fails to parse. -/
def c6Parse : String → Option String :=
  fun s => if s = "bad" then none else some s


/-! Claim C2. -/

/-- Network for the C2 counterexample: the item page resolves to the preview
image `https://img.h/x.jpg`. -/
def c2Net : Nat → NetResult
  | 0 => .resp 200 none true previewBody true
  | _ => .sendErr


/-- Run state on which the computed target path `out/t/1.jpg` already
exists. -/
def c2St : St := { calls := 0, fs := ["out/t/1.jpg"], trace := [] }


/-! Claim C3. -/

/-- Network for the C3 counterexample: every response arrives but its body
cannot be read as text, so every attempt fails at the resolution step. -/
def c3Net : Nat → NetResult := fun _ => .resp 200 none false emptyPage false


/-! Claim C4. -/

/-- Network for C4: attempt 1 resolves the item and the asset responds with
a success status, but reading the asset body bytes fails — after
`File::create` has already placed the file at the final output path;
attempts 2 and 3 fail at the item-page body read. -/
def c4Net : Nat → NetResult
  | 0 => .resp 200 none true previewBody true
  | 1 => .resp 200 none true emptyPage false
  | 2 => .resp 200 none false emptyPage true
  | 3 => .resp 200 none false emptyPage true
  | _ => .sendErr


/-! Claim C5. -/

/-- Network for C5, panic scenario: gallery page with title "t", one listing
page with two items; the first item's page fetch dies with a transport
error, the second item resolves and downloads fine. -/
def c5aNet : Nat → NetResult
  | 0 => .resp 200 none true { emptyPage with titleGn := some "t" } true
  | 1 => .resp 200 none true
      { emptyPage with
          itemLinks := [some "https://e.x/i1", some "https://e.x/i2"] } true
  | 2 => .sendErr
  | 3 => .resp 200 none true previewBody true
  | 4 => .resp 200 none true emptyPage true
  | _ => .sendErr


/-- Network for C5, contrast scenario: same gallery, but the first item's
page fetch returns a response whose body text read fails, on each of its
three attempts. -/
def c5bNet : Nat → NetResult
  | 0 => .resp 200 none true { emptyPage with titleGn := some "t" } true
  | 1 => .resp 200 none true
      { emptyPage with
          itemLinks := [some "https://e.x/i1", some "https://e.x/i2"] } true
  | 2 => .resp 200 none false emptyPage true
  | 3 => .resp 200 none false emptyPage true
  | 4 => .resp 200 none false emptyPage true
  | 5 => .resp 200 none true previewBody true
  | 6 => .resp 200 none true emptyPage true
  | _ => .sendErr


/-! Claim C8. -/

/-- Network for the C8 counterexample: every request dies with a transport
error, so the single gallery fails to crawl at `fetch_info`. -/
def c8Net : Nat → NetResult := fun _ => .sendErr


/-- Network for the C7 witness, redirect scenario: an item page carrying an
"original" anchor, then a 302 probe answer with a `Location` header. -/
def c7aNet : Nat → NetResult
  | 0 => .resp 200 none true
      { emptyPage with originalHref := some "https://e.x/orig",
                       previewSrc := some "https://img.h/x.jpg" } true
  | 1 => .resp 302 (some "https://f.y/full.png") true emptyPage true
  | _ => .sendErr


/-- Network for the C7 witness, fallback scenario: an item page with a
preview image and no "original" anchor. -/
def c7bNet : Nat → NetResult
  | 0 => .resp 200 none true previewBody true
  | _ => .sendErr


/-! Claim C9: the concurrency structure of the run. `init` (src/main.rs)
creates one process-wide `tokio::sync::Semaphore` with
`config.concurrency as usize` permits; every download task spawned by any
`Gallery::download` first awaits one permit, holds it for the whole body of
the per-item `download` call (every network call of the item runs inside
it), and releases it when the task's scope ends. The model is a transition
system over the semaphore counter and the phases of all spawned tasks. -/

/-- Phase of one spawned download task with respect to the semaphore. -/
inductive Phase where
  | pending  -- spawned, still awaiting the permit
  | holding  -- holds a permit: the item's download and its network calls run here
  | done     -- finished; permit released
  deriving DecidableEq, Repr


/-- Global state: free permits, plus every spawned task tagged with the
gallery it belongs to. -/
structure SemSt where
  avail : Nat
  tasks : List (Nat × Phase)
  deriving DecidableEq, Repr


/-- `config.concurrency as usize`: the i64 cast to usize with wrap-around. -/
def semPermits (cfg : Config) : Nat :=
  (Int.emod cfg.concurrency (Int.ofNat (2 ^ 64))).toNat


/-- `init` in src/main.rs: the single semaphore starts with
`config.concurrency` permits; no task exists yet. -/
def semInit (cfg : Config) : SemSt := ⟨semPermits cfg, []⟩


/-- Events of a run: any gallery `g` spawns a task; a pending task acquires
a permit when one is free; a holding task finishes and releases it. -/
inductive SemStep : SemSt → SemSt → Prop where
  | spawn (g a : Nat) (ts : List (Nat × Phase)) :
      SemStep ⟨a, ts⟩ ⟨a, ts ++ [(g, Phase.pending)]⟩
  | acquire (g i a : Nat) (ts : List (Nat × Phase))
      (h : ts.get? i = some (g, Phase.pending)) :
      SemStep ⟨a + 1, ts⟩ ⟨a, ts.set i (g, Phase.holding)⟩
  | release (g i a : Nat) (ts : List (Nat × Phase))
      (h : ts.get? i = some (g, Phase.holding)) :
      SemStep ⟨a, ts⟩ ⟨a + 1, ts.set i (g, Phase.done)⟩


/-- States reachable during a run under configuration `cfg`. -/
inductive SemReach (cfg : Config) : SemSt → Prop where
  | init : SemReach cfg (semInit cfg)
  | step {s s2 : SemSt} : SemReach cfg s → SemStep s s2 → SemReach cfg s2


/-- Tasks of any gallery currently holding a permit, i.e. running their
item's download. -/
def holdingCount (s : SemSt) : Nat :=
  (s.tasks.filter (fun t => decide (t.2 = Phase.holding))).length


/-! Claim C10: every request of a run goes through the one shared client. -/

/-- A request that went through client `c`, with `c`'s redirect policy. -/
def Stamped (c : Client) (r : Request) : Prop :=
  r.viaClient = c ∧ r.followRedirects = c.followRedirects


/-- Network for the C10 witness: every request dies on send. -/
def c10Net : Nat → NetResult := fun _ => .sendErr


/-- Network for the C2 amended witness: every item page resolves to the
preview image `https://img.h/x.jpg`. -/
def c2wNet : Nat → NetResult := fun _ => .resp 200 none true previewBody true


/-- Run state for the C2 amended witness: both output files exist. -/
def c2wSt : St :=
  { calls := 0, fs := ["out/t/1.jpg", "out/t/2.jpg"], trace := [] }


/-! Claim theorems, counterexamples, witnesses and helper lemmas. -/

/-- C1: the crawler does NOT produce the item links of page 1 through page K
concatenated in page order. `Gallery::fetch_images` inserts each page's
links at `Vec` positions `0..` (the within-page enumeration index), so a
later page's links land in front of the earlier pages' links: a two-page
gallery with item `a1` on page 1 and `a2` on page 2 crawls to
`[a2, a1]`, not the page-order concatenation `[a1, a2]`. -/
theorem c1_page_order_bug :
    (fetchImages (initClient cfg0) c1Net parseAll 5 "https://e.x/g" st0).1
      = CrawlResult.ok ["https://e.x/a2", "https://e.x/a1"] ∧
    CrawlResult.ok ["https://e.x/a2", "https://e.x/a1"]
      ≠ CrawlResult.ok ["https://e.x/a1", "https://e.x/a2"] := by
  constructor
  · decide
  · decide


/-- C6: a malformed item link is NOT silently skipped without consequence:
skipping it advances the enumeration index past the vector length, so the
next well-formed link's `Vec::insert` is out of bounds and panics. A page
whose first item href fails URL parsing and whose second parses makes
`Gallery::fetch_images` panic instead of continuing the crawl. -/
theorem c6_malformed_link_panics :
    (fetchImages (initClient cfg0) c6Net c6Parse 5 "https://e.x/g" st0).1
      = CrawlResult.panicked := by
  decide


/-- C2 counterexample: an item whose output file already exists ends as
Skipped, yet a network call IS issued for it — the resolution-step fetch of
the item page happens before the file-existence check, so the trace holds
one request (tagged as an item-page fetch) rather than none. -/
theorem c2_counterexample :
    (downloadRetry cfg0 (initClient cfg0) c2Net 0 "t" "https://e.x/i1"
        c2St).1 = AttemptResult.okSkipped ∧
    ((downloadRetry cfg0 (initClient cfg0) c2Net 0 "t" "https://e.x/i1"
        c2St).2.trace.map (fun r => r.tag)) = [StepTag.itemPage] := by
  constructor
  · decide
  · decide


/-- C3 counterexample: the 3-attempt retry is NOT limited to the
download-step fetch of the asset bytes — when the item-page body read fails
on every attempt, the retried attempts re-issue the resolution-step fetch of
the item page, so the trace holds three item-page requests (and no asset
request). -/
theorem c3_counterexample :
    (downloadRetry cfg0 (initClient cfg0) c3Net 0 "t" "https://e.x/i1"
        st0).1 = AttemptResult.errored ∧
    ((downloadRetry cfg0 (initClient cfg0) c3Net 0 "t" "https://e.x/i1"
        st0).2.trace.map (fun r => r.tag))
      = [StepTag.itemPage, StepTag.itemPage, StepTag.itemPage] := by
  constructor
  · decide
  · decide


/-- C4: a download that ends in a Failed outcome CAN leave a file at the
final output path. `download` calls `File::create` directly on the final
path before reading the body bytes; when the byte read then fails, the
created (empty) file stays at `out/t/1.jpg` while the item's outcome after
all retries is Failed. There is no temporary location and no rename. -/
theorem c4_failed_leaves_file :
    (downloadRetry cfg0 (initClient cfg0) c4Net 0 "t" "https://e.x/i1"
        st0).1 = AttemptResult.errored ∧
    outcomeOf (downloadRetry cfg0 (initClient cfg0) c4Net 0 "t"
        "https://e.x/i1" st0).1 = ItemOutcome.failed ∧
    fsHas (downloadRetry cfg0 (initClient cfg0) c4Net 0 "t" "https://e.x/i1"
        st0).2.fs "out/t/1.jpg" = true := by
  refine ⟨by decide, by decide, by decide⟩


/-- C5: a transport error on the item-page fetch is NOT recorded as Failed
for that item only. The fetch result is unwrapped with
`.expect("Failed to send request")`, so the task panics and
`JoinSet::join_all` re-panics out of `Gallery::download`, aborting the whole
run — first conjunct. By contrast, a resolution failure that surfaces as an
Err (here: the item-page body read failing) is fatal to the item only and
the remaining items are still processed — second conjunct. -/
theorem c5_transport_error_panics :
    (galleryDownload cfg0 (initClient cfg0) c5aNet parseAll 3 "https://e.x/g"
        st0).1
      = GalleryResult.panicked [ItemOutcome.panicked, ItemOutcome.succeeded] ∧
    (galleryDownload cfg0 (initClient cfg0) c5bNet parseAll 3 "https://e.x/g"
        st0).1
      = GalleryResult.completed [ItemOutcome.failed, ItemOutcome.succeeded] := by
  constructor
  · decide
  · decide


/-- C8 counterexample: a run in which a gallery fails to crawl still exits
with status 0. `Gallery::download` logs the crawl error and returns unit;
`main`'s loop continues and returns Ok(()), so the process exit status is
0, not non-zero. -/
theorem c8_counterexample :
    (runGalleries cfg0 (initClient cfg0) c8Net parseAll 3 ["https://e.x/g"]
        st0).1 = RunResult.finished [GalleryResult.infoErr] ∧
    exitCode (runGalleries cfg0 (initClient cfg0) c8Net parseAll 3
        ["https://e.x/g"] st0).1 = 0 := by
  constructor
  · decide
  · decide


/-! Claim C7. -/

/-- C7: original-mode resolution. First conjunct: when the item page holds
an "original resolution" anchor and probing its href answers a redirection
status with a `Location` header, the item resolves to the header's value;
the trace shows the probe request issued to the anchor's href through the
run's client, whose automatic redirect following is disabled
(`followRedirects = false`). Second conjunct: when the anchor is absent, the
item resolves to the preview-image `src` of the same page, successfully and
with no probe — the trace gains exactly the one item-page request. -/
theorem c7_original_mode (cfg : Config) (net net2 : Nat → NetResult)
    (url url2 : String) (s s2 : St)
    (hor : cfg.original = true)
    (status : Nat) (loc0 : Option String) (body : PageBody) (b0 : Bool)
    (hpage : net s.calls = NetResult.resp status loc0 true body b0)
    (href : String) (hhref : body.originalHref = some href)
    (pstatus : Nat) (loc : String) (pt : Bool) (pb : PageBody) (pbo : Bool)
    (hprobe : net (s.calls + 1) = NetResult.resp pstatus (some loc) pt pb pbo)
    (hred : statusIsRedirection pstatus = true)
    (hne : loc ≠ "")
    (status2 : Nat) (loc2 : Option String) (body2 : PageBody) (b2 : Bool)
    (hpage2 : net2 s2.calls = NetResult.resp status2 loc2 true body2 b2)
    (hnohref : body2.originalHref = none)
    (psrc : String) (hprev : body2.previewSrc = some psrc)
    (hpne : psrc ≠ "") :
    ((resolveStep cfg (initClient cfg) net url s).1
        = ResolveResult.resolved loc ∧
      (resolveStep cfg (initClient cfg) net url s).2.trace
        = s.trace ++ [⟨url, StepTag.itemPage, initClient cfg, false⟩,
                      ⟨href, StepTag.probe, initClient cfg, false⟩]) ∧
    ((resolveStep cfg (initClient cfg) net2 url2 s2).1
        = ResolveResult.resolved psrc ∧
      (resolveStep cfg (initClient cfg) net2 url2 s2).2.trace
        = s2.trace ++ [⟨url2, StepTag.itemPage, initClient cfg, false⟩]) := by
  constructor
  · have h1 : (resolveStep cfg (initClient cfg) net url s)
        = (ResolveResult.resolved loc,
           { calls := s.calls + 1 + 1, fs := s.fs,
             trace := s.trace ++ [⟨url, StepTag.itemPage, initClient cfg, false⟩]
               ++ [⟨href, StepTag.probe, initClient cfg, false⟩] }) := by
      simp only [resolveStep, fetchVia, initClient, hpage, hor, hhref, hprobe,
        hred, Bool.not_true, Bool.false_eq_true, if_false, if_true, hne,
        if_neg hne]
    rw [h1]
    simp [List.append_assoc]
  · have h2 : (resolveStep cfg (initClient cfg) net2 url2 s2)
        = (ResolveResult.resolved psrc,
           { calls := s2.calls + 1, fs := s2.fs,
             trace := s2.trace
               ++ [⟨url2, StepTag.itemPage, initClient cfg, false⟩] }) := by
      simp only [resolveStep, fetchVia, initClient, hpage2, hor, hnohref,
        hprev, Bool.not_true, Bool.false_eq_true, if_false, if_true,
        Option.getD_some, if_neg hpne]
    rw [h2]
    simp


/-- Witness for C7 at concrete inputs. -/
theorem c7_original_mode_witness :
    ((resolveStep cfg1 (initClient cfg1) c7aNet "https://e.x/i1" st0).1
        = ResolveResult.resolved "https://f.y/full.png" ∧
      (resolveStep cfg1 (initClient cfg1) c7aNet "https://e.x/i1" st0).2.trace
        = st0.trace
            ++ [⟨"https://e.x/i1", StepTag.itemPage, initClient cfg1, false⟩,
                ⟨"https://e.x/orig", StepTag.probe, initClient cfg1, false⟩]) ∧
    ((resolveStep cfg1 (initClient cfg1) c7bNet "https://e.x/i2" st0).1
        = ResolveResult.resolved "https://img.h/x.jpg" ∧
      (resolveStep cfg1 (initClient cfg1) c7bNet "https://e.x/i2" st0).2.trace
        = st0.trace
            ++ [⟨"https://e.x/i2", StepTag.itemPage, initClient cfg1, false⟩]) :=
  c7_original_mode cfg1 c7aNet c7bNet "https://e.x/i1" "https://e.x/i2" st0 st0
    rfl 200 none
    { emptyPage with originalHref := some "https://e.x/orig",
                     previewSrc := some "https://img.h/x.jpg" }
    true rfl "https://e.x/orig" rfl 302 "https://f.y/full.png" true emptyPage
    true rfl (by decide) (by decide) 200 none previewBody true rfl rfl
    "https://img.h/x.jpg" rfl (by decide)


/-- Helper: acquiring turns one pending task into a holding one. -/
theorem holding_filter_set_acquire (ts : List (Nat × Phase)) :
    ∀ (i g g2 : Nat), ts.get? i = some (g, Phase.pending) →
      ((ts.set i (g2, Phase.holding)).filter
        (fun t => decide (t.2 = Phase.holding))).length
      = (ts.filter (fun t => decide (t.2 = Phase.holding))).length + 1 := by
  induction ts with
  | nil => intro i g g2 h; simp at h
  | cons hd tl ih =>
    intro i g g2 h
    cases i with
    | zero =>
      simp only [List.get?] at h
      injection h with h
      subst h
      simp [List.filter]
    | succ j =>
      simp only [List.get?] at h
      have := ih j g g2 h
      cases hp : decide (hd.2 = Phase.holding) <;>
        simp [List.filter, List.set, hp, this, Nat.add_comm, Nat.add_assoc]


/-- Helper: releasing turns one holding task into a done one. -/
theorem holding_filter_set_release (ts : List (Nat × Phase)) :
    ∀ (i g g2 : Nat), ts.get? i = some (g, Phase.holding) →
      ((ts.set i (g2, Phase.done)).filter
        (fun t => decide (t.2 = Phase.holding))).length + 1
      = (ts.filter (fun t => decide (t.2 = Phase.holding))).length := by
  induction ts with
  | nil => intro i g g2 h; simp at h
  | cons hd tl ih =>
    intro i g g2 h
    cases i with
    | zero =>
      simp only [List.get?] at h
      injection h with h
      subst h
      simp [List.filter]
    | succ j =>
      simp only [List.get?] at h
      have := ih j g g2 h
      cases hp : decide (hd.2 = Phase.holding) <;>
        simp [List.filter, List.set, hp, ← this, Nat.add_comm, Nat.add_assoc]


/-- Invariant of the semaphore system: permits outstanding plus permits
free always equal the configured total. -/
theorem sem_invariant (cfg : Config) (s : SemSt) (hr : SemReach cfg s) :
    holdingCount s + s.avail = semPermits cfg := by
  induction hr with
  | init => simp [semInit, holdingCount]
  | step _ hstep ih =>
    cases hstep with
    | spawn g a ts =>
      simp only [holdingCount] at ih ⊢
      simp only [List.filter_append]
      simp [List.filter, ih]
    | acquire g i a ts h =>
      simp only [holdingCount] at ih ⊢
      rw [holding_filter_set_acquire ts i g g h] at *
      omega
    | release g i a ts h =>
      simp only [holdingCount] at ih ⊢
      rw [← holding_filter_set_release ts i g g h] at *
      omega


/-- C9: at no point of a run do more than `concurrency` download tasks hold
a permit — and the per-item download with all its network activity runs
inside the permit scope — across all galleries of the run (the task list is
global, tasks of every gallery draw from the same semaphore). Stated for
any configuration whose `concurrency : i64` is non-negative and below
2^64, so that the `as usize` cast is the identity. -/
theorem c9_semaphore_bound (cfg : Config) (s : SemSt)
    (hc0 : 0 ≤ cfg.concurrency)
    (hc1 : cfg.concurrency < Int.ofNat (2 ^ 64))
    (hr : SemReach cfg s) :
    holdingCount s ≤ cfg.concurrency.toNat := by
  have hinv := sem_invariant cfg s hr
  have hmod : Int.emod cfg.concurrency (Int.ofNat (2 ^ 64))
      = cfg.concurrency := Int.emod_eq_of_lt hc0 hc1
  have hperm : semPermits cfg = cfg.concurrency.toNat := by
    unfold semPermits
    rw [hmod]
  omega


/-- Witness for C9: under `cfg0` (concurrency 2), after spawning one task
and letting it acquire, the reachable state has one holding task, bounded
by 2. -/
theorem c9_semaphore_bound_witness :
    holdingCount ⟨1, [(0, Phase.holding)]⟩ ≤ cfg0.concurrency.toNat := by
  have hinit : SemReach cfg0 ⟨2, []⟩ := by
    have h0 : semInit cfg0 = ⟨2, []⟩ := by decide
    exact h0 ▸ SemReach.init
  exact c9_semaphore_bound cfg0 _ (by decide) (by decide)
    (SemReach.step (SemReach.step hinit (SemStep.spawn 0 2 []))
      (SemStep.acquire 0 0 1 [(0, Phase.pending)] rfl))


/-- Helper: the request `fetchVia` records is stamped with its client. -/
theorem stamped_one (c : Client) (url : String) (tag : StepTag) :
    ∀ r ∈ [(⟨url, tag, c, c.followRedirects⟩ : Request)], Stamped c r := by
  intro r hr
  simp only [List.mem_singleton] at hr
  subst hr
  exact ⟨rfl, rfl⟩


/-- Helper: the two requests of an item page fetch plus probe. -/
theorem stamped_two (c : Client) (u1 u2 : String) (t1 t2 : StepTag) :
    ∀ r ∈ [(⟨u1, t1, c, c.followRedirects⟩ : Request),
           (⟨u2, t2, c, c.followRedirects⟩ : Request)], Stamped c r := by
  intro r hr
  simp only [List.mem_cons, List.mem_singleton, List.not_mem_nil, or_false]
    at hr
  rcases hr with hr | hr <;> (subst hr; exact ⟨rfl, rfl⟩)


/-- Helper: `resolveStep` only appends requests through its client. -/
theorem resolveStep_trace (cfg : Config) (c : Client) (net : Nat → NetResult)
    (url : String) (s : St) :
    ∃ t, (resolveStep cfg c net url s).2.trace = s.trace ++ t ∧
      ∀ r ∈ t, Stamped c r := by
  unfold resolveStep fetchVia
  rcases h1 : net s.calls with _ | ⟨status, loc, tOk, body, bOk⟩
  · exact ⟨_, rfl, stamped_one c url .itemPage⟩
  · dsimp only
    split
    · exact ⟨_, rfl, stamped_one c url .itemPage⟩
    · split
      · rcases body.originalHref with _ | href
        · dsimp only
          split
          · exact ⟨_, rfl, stamped_one c url .itemPage⟩
          · exact ⟨_, rfl, stamped_one c url .itemPage⟩
        · dsimp only
          rcases h2 : net (s.calls + 1) with _ | ⟨ps, pl, pt, pb, pbo⟩
          · refine ⟨[⟨url, .itemPage, c, c.followRedirects⟩,
                     ⟨href, .probe, c, c.followRedirects⟩], ?_,
                    stamped_two c url href .itemPage .probe⟩
            simp
          · dsimp only
            refine ⟨[⟨url, .itemPage, c, c.followRedirects⟩,
                     ⟨href, .probe, c, c.followRedirects⟩], ?_,
                    stamped_two c url href .itemPage .probe⟩
            split <;> (try split) <;> (try split) <;> simp
      · split
        · exact ⟨_, rfl, stamped_one c url .itemPage⟩
        · exact ⟨_, rfl, stamped_one c url .itemPage⟩


/-- Helper: `downloadOnce` only appends requests through its client. -/
theorem downloadOnce_trace (cfg : Config) (c : Client) (net : Nat → NetResult)
    (index : Nat) (title url : String) (s : St) :
    ∃ t, (downloadOnce cfg c net index title url s).2.trace = s.trace ++ t ∧
      ∀ r ∈ t, Stamped c r := by
  unfold downloadOnce
  obtain ⟨t1, ht1, hs1⟩ := resolveStep_trace cfg c net url s
  rcases hres : resolveStep cfg c net url s with ⟨rr, s1⟩
  rw [hres] at ht1
  dsimp only at ht1
  cases rr with
  | panicked => exact ⟨t1, ht1, hs1⟩
  | errored => exact ⟨t1, ht1, hs1⟩
  | resolved imageUrl =>
    dsimp only
    split
    · exact ⟨t1, ht1, hs1⟩
    · unfold fetchVia
      rcases h2 : net s1.calls with _ | ⟨ast, aloc, atOk, ab, abOk⟩
      · refine ⟨t1 ++ [⟨imageUrl, .asset, c, c.followRedirects⟩], ?_, ?_⟩
        · simp [ht1]
        · intro r hr
          rcases List.mem_append.mp hr with hr | hr
          · exact hs1 r hr
          · exact stamped_one c imageUrl .asset r hr
      · dsimp only
        split
        · refine ⟨t1 ++ [⟨imageUrl, .asset, c, c.followRedirects⟩], ?_, ?_⟩
          · simp [ht1]
          · intro r hr
            rcases List.mem_append.mp hr with hr | hr
            · exact hs1 r hr
            · exact stamped_one c imageUrl .asset r hr
        · split
          · refine ⟨t1 ++ [⟨imageUrl, .asset, c, c.followRedirects⟩], ?_, ?_⟩
            · simp [ht1]
            · intro r hr
              rcases List.mem_append.mp hr with hr | hr
              · exact hs1 r hr
              · exact stamped_one c imageUrl .asset r hr
          · refine ⟨t1 ++ [⟨imageUrl, .asset, c, c.followRedirects⟩], ?_, ?_⟩
            · simp [ht1]
            · intro r hr
              rcases List.mem_append.mp hr with hr | hr
              · exact hs1 r hr
              · exact stamped_one c imageUrl .asset r hr


/-- Helper: composing two trace extensions. -/
theorem trace_ext_comp {tr1 tr2 tr3 : List Request} {c : Client}
    (h1 : ∃ t, tr2 = tr1 ++ t ∧ ∀ r ∈ t, Stamped c r)
    (h2 : ∃ t, tr3 = tr2 ++ t ∧ ∀ r ∈ t, Stamped c r) :
    ∃ t, tr3 = tr1 ++ t ∧ ∀ r ∈ t, Stamped c r := by
  obtain ⟨t1, e1, s1⟩ := h1
  obtain ⟨t2, e2, s2⟩ := h2
  refine ⟨t1 ++ t2, ?_, ?_⟩
  · rw [e2, e1, List.append_assoc]
  · intro r hr
    rcases List.mem_append.mp hr with hr | hr
    · exact s1 r hr
    · exact s2 r hr


/-- Helper: `downloadRetry` only appends requests through its client. -/
theorem downloadRetry_trace (cfg : Config) (c : Client) (net : Nat → NetResult)
    (index : Nat) (title url : String) (s : St) :
    ∃ t, (downloadRetry cfg c net index title url s).2.trace = s.trace ++ t ∧
      ∀ r ∈ t, Stamped c r := by
  unfold downloadRetry
  have h1 := downloadOnce_trace cfg c net index title url s
  rcases e1 : downloadOnce cfg c net index title url s with ⟨r1, s1⟩
  rw [e1] at h1
  dsimp only at h1
  cases r1 with
  | okSkipped => exact h1
  | okDownloaded => exact h1
  | panicked => exact h1
  | errored =>
    dsimp only
    have h2 := downloadOnce_trace cfg c net index title url s1
    rcases e2 : downloadOnce cfg c net index title url s1 with ⟨r2, s2⟩
    rw [e2] at h2
    dsimp only at h2
    cases r2 with
    | okSkipped => exact trace_ext_comp h1 h2
    | okDownloaded => exact trace_ext_comp h1 h2
    | panicked => exact trace_ext_comp h1 h2
    | errored =>
      dsimp only
      have h3 := downloadOnce_trace cfg c net index title url s2
      exact trace_ext_comp (trace_ext_comp h1 h2) h3


/-- Helper: the item loop only appends requests through its client. -/
theorem runItems_trace (cfg : Config) (c : Client) (net : Nat → NetResult)
    (title : String) (items : List String) :
    ∀ (index : Nat) (s : St),
      ∃ t, (runItems cfg c net title index items s).2.trace = s.trace ++ t ∧
        ∀ r ∈ t, Stamped c r := by
  induction items with
  | nil => intro index s; exact ⟨[], by simp [runItems], by simp⟩
  | cons u rest ih =>
    intro index s
    have h1 := downloadRetry_trace cfg c net index title u s
    rcases e1 : downloadRetry cfg c net index title u s with ⟨r1, s1⟩
    rw [e1] at h1
    dsimp only at h1
    have h2 := ih (index + 1) s1
    rcases e2 : runItems cfg c net title (index + 1) rest s1 with ⟨outs, s2⟩
    rw [e2] at h2
    dsimp only at h2
    simp only [runItems, e1, e2]
    exact trace_ext_comp h1 h2


/-- Helper: `fetch_info` only appends requests through its client. -/
theorem fetchInfo_trace (c : Client) (net : Nat → NetResult) (url : String)
    (s : St) :
    ∃ t, (fetchInfo c net url s).2.trace = s.trace ++ t ∧
      ∀ r ∈ t, Stamped c r := by
  unfold fetchInfo fetchVia
  rcases h1 : net s.calls with _ | ⟨status, loc, tOk, body, bOk⟩
  · exact ⟨_, rfl, stamped_one c url .titlePage⟩
  · dsimp only
    split
    · exact ⟨_, rfl, stamped_one c url .titlePage⟩
    · split
      · exact ⟨_, rfl, stamped_one c url .titlePage⟩
      · rcases body.titleGn with _ | t0
        · exact ⟨_, rfl, stamped_one c url .titlePage⟩
        · exact ⟨_, rfl, stamped_one c url .titlePage⟩


/-- Helper: the pagination loop only appends requests through its client. -/
theorem fetchImagesLoop_trace (c : Client) (net : Nat → NetResult)
    (parse : String → Option String) (fuel : Nat) :
    ∀ (url : String) (imgs : List String) (s : St),
      ∃ t, (fetchImagesLoop c net parse fuel url imgs s).2.trace
          = s.trace ++ t ∧ ∀ r ∈ t, Stamped c r := by
  induction fuel with
  | zero => intro url imgs s; exact ⟨[], by simp [fetchImagesLoop], by simp⟩
  | succ fuel ih =>
    intro url imgs s
    unfold fetchImagesLoop fetchVia
    rcases h1 : net s.calls with _ | ⟨status, loc, tOk, body, bOk⟩
    · exact ⟨_, rfl, stamped_one c url .pagination⟩
    · dsimp only
      split
      · exact ⟨_, rfl, stamped_one c url .pagination⟩
      · rcases processLinks parse 0 body.itemLinks imgs with _ | imgs2
        · exact ⟨_, rfl, stamped_one c url .pagination⟩
        · dsimp only
          rcases body.nextPage with _ | onext
          · exact ⟨_, rfl, stamped_one c url .pagination⟩
          · rcases onext with _ | href
            · exact ⟨_, rfl, stamped_one c url .pagination⟩
            · dsimp only
              refine trace_ext_comp
                ⟨[⟨url, .pagination, c, c.followRedirects⟩], rfl,
                 stamped_one c url .pagination⟩ (ih href imgs2 _)


/-- Helper: `Gallery::download` only appends requests through its client. -/
theorem galleryDownload_trace (cfg : Config) (c : Client)
    (net : Nat → NetResult) (parse : String → Option String) (fuel : Nat)
    (galleryUrl : String) (s : St) :
    ∃ t, (galleryDownload cfg c net parse fuel galleryUrl s).2.trace
        = s.trace ++ t ∧ ∀ r ∈ t, Stamped c r := by
  unfold galleryDownload
  have h1 := fetchInfo_trace c net galleryUrl s
  rcases e1 : fetchInfo c net galleryUrl s with ⟨ir, s1⟩
  rw [e1] at h1
  dsimp only at h1
  cases ir with
  | errFetch => exact h1
  | errStatus => exact h1
  | errNoTitle => exact h1
  | ok title0 =>
    dsimp only
    have h2 := fetchImagesLoop_trace c net parse fuel galleryUrl [] s1
    rcases e2 : fetchImages c net parse fuel galleryUrl s1 with ⟨cr, s2⟩
    rw [show fetchImages c net parse fuel galleryUrl s1
        = fetchImagesLoop c net parse fuel galleryUrl [] s1 from rfl] at e2
    rw [e2] at h2
    dsimp only at h2
    cases cr with
    | fetchErr => exact trace_ext_comp h1 h2
    | panicked => exact trace_ext_comp h1 h2
    | fuelOut => exact trace_ext_comp h1 h2
    | ok images =>
      dsimp only
      have h3 := runItems_trace cfg c net (sanitizeTitle title0) images 0 s2
      rcases e3 : runItems cfg c net (sanitizeTitle title0) 0 images s2
        with ⟨outs, s3⟩
      rw [e3] at h3
      dsimp only at h3
      split
      · exact trace_ext_comp (trace_ext_comp h1 h2) h3
      · exact trace_ext_comp (trace_ext_comp h1 h2) h3


/-- Helper: the whole gallery loop of `main` only appends requests through
its client. -/
theorem runGalleries_trace (cfg : Config) (c : Client) (net : Nat → NetResult)
    (parse : String → Option String) (fuel : Nat) (gs : List String) :
    ∀ s : St,
      ∃ t, (runGalleries cfg c net parse fuel gs s).2.trace = s.trace ++ t ∧
        ∀ r ∈ t, Stamped c r := by
  induction gs with
  | nil => intro s; exact ⟨[], by simp [runGalleries], by simp⟩
  | cons g rest ih =>
    intro s
    have h1 := galleryDownload_trace cfg c net parse fuel g s
    rcases e1 : galleryDownload cfg c net parse fuel g s with ⟨res, s1⟩
    rw [e1] at h1
    dsimp only at h1
    have h2 := ih s1
    rcases e2 : runGalleries cfg c net parse fuel rest s1 with ⟨rr, s2⟩
    rw [e2] at h2
    dsimp only at h2
    simp only [runGalleries, e1, e2]
    split
    · exact h1
    · cases rr with
      | finished l => exact trace_ext_comp h1 h2
      | aborted l => exact trace_ext_comp h1 h2


/-- C10: every HTTP request a run issues — title and pagination fetches,
item-page fetches, original-mode probes, asset-byte downloads — is issued
through the one client `init` builds, whose automatic redirect following is
disabled, so no request of the run follows a redirect. -/
theorem c10_single_client_no_redirects (cfg : Config) (net : Nat → NetResult)
    (parse : String → Option String) (fuel : Nat) (gs : List String)
    (fs0 : List String) :
    ∀ r ∈ (runGalleries cfg (initClient cfg) net parse fuel gs
        ⟨0, fs0, []⟩).2.trace,
      r.viaClient = initClient cfg ∧ r.followRedirects = false := by
  intro r hr
  obtain ⟨t, ht, hs⟩ :=
    runGalleries_trace cfg (initClient cfg) net parse fuel gs ⟨0, fs0, []⟩
  rw [ht] at hr
  simp only [List.nil_append] at hr
  obtain ⟨hv, hf⟩ := hs r hr
  exact ⟨hv, hf⟩


/-- Witness for C10 at a concrete one-gallery run: the single issued
request is stamped with the run's client and does not follow redirects. -/
theorem c10_single_client_no_redirects_witness :
    (⟨"https://e.x/g", StepTag.titlePage, initClient cfg0, false⟩ :
        Request).viaClient = initClient cfg0 ∧
    (⟨"https://e.x/g", StepTag.titlePage, initClient cfg0, false⟩ :
        Request).followRedirects = false :=
  c10_single_client_no_redirects cfg0 c10Net parseAll 1 ["https://e.x/g"] []
    ⟨"https://e.x/g", StepTag.titlePage, initClient cfg0, false⟩ (by decide)


/-! Amended claims. -/

/-- C8 amended: the exit status of the gallery loop is non-zero only when
some processed gallery panicked (a propagating task panic aborts the
process); a gallery that merely failed to crawl is not a panic —
`Gallery::download` logs the crawl error and returns unit — so crawl
failures alone leave the exit status 0. -/
theorem c8_amended (cfg : Config) (c : Client) (net : Nat → NetResult)
    (parse : String → Option String) (fuel : Nat) (gs : List String) (s : St)
    (h : exitCode (runGalleries cfg c net parse fuel gs s).1 ≠ 0) :
    (∃ l, (runGalleries cfg c net parse fuel gs s).1 = RunResult.aborted l ∧
        ∃ res ∈ l, isPanic res = true) ∧
    isPanic GalleryResult.infoErr = false ∧
    isPanic GalleryResult.imagesErr = false := by
  refine ⟨?_, rfl, rfl⟩
  revert h
  induction gs generalizing s with
  | nil =>
    intro h
    simp [runGalleries, exitCode] at h
  | cons g rest ih =>
    intro h
    rcases e1 : galleryDownload cfg c net parse fuel g s with ⟨res, s1⟩
    by_cases hp : isPanic res = true
    · refine ⟨[res], ?_, res, List.mem_singleton_self res, hp⟩
      simp [runGalleries, e1, hp]
    · rcases e2 : runGalleries cfg c net parse fuel rest s1 with ⟨rr, s2⟩
      cases rr with
      | finished l =>
        exfalso
        apply h
        simp [runGalleries, e1, hp, e2, exitCode]
      | aborted l =>
        have h2 : exitCode (runGalleries cfg c net parse fuel rest s1).1
            ≠ 0 := by
          rw [e2]
          simp [exitCode]
        obtain ⟨l2, hl2, res2, hmem, hpan⟩ := ih s1 h2
        rw [e2] at hl2
        dsimp only at hl2
        injection hl2 with hl2
        subst hl2
        refine ⟨res :: l, ?_, res2, List.mem_cons_of_mem res hmem, hpan⟩
        simp [runGalleries, e1, hp, e2]


/-- Witness for the amended C8: a run whose single gallery holds an item
whose page fetch dies with a transport error has a non-zero exit status,
and indeed some processed gallery panicked. -/
theorem c8_amended_witness :
    (∃ l, (runGalleries cfg0 (initClient cfg0) c5aNet parseAll 3
        ["https://e.x/g"] st0).1 = RunResult.aborted l ∧
      ∃ res ∈ l, isPanic res = true) ∧
    isPanic GalleryResult.infoErr = false ∧
    isPanic GalleryResult.imagesErr = false :=
  c8_amended cfg0 (initClient cfg0) c5aNet parseAll 3 ["https://e.x/g"] st0
    (by decide)


/-- C3 amended: the 3-attempt bounded retry wraps the whole per-item
`download` function, so a failing attempt re-executes the resolution-step
fetch of the item page as well (first conjunct: when the item-page body
read fails on every attempt, exactly three item-page requests are issued
and the item ends Failed); pagination fetches, by contrast, are outside any
retry: a failing listing-page fetch is issued exactly once and the crawl
ends immediately (second conjunct). -/
theorem c3_amended :
    (∀ (cfg : Config) (c : Client) (net : Nat → NetResult) (index : Nat)
        (title url : String) (s : St),
      (∀ n, ∃ status loc body bo,
          net n = NetResult.resp status loc false body bo) →
      ∃ s2, downloadRetry cfg c net index title url s
          = (AttemptResult.errored, s2) ∧
        (s2.trace.drop s.trace.length).map (fun r => r.tag)
          = [StepTag.itemPage, StepTag.itemPage, StepTag.itemPage]) ∧
    (∀ (c : Client) (net : Nat → NetResult) (parse : String → Option String)
        (fuel : Nat) (url : String) (imgs : List String) (s : St),
      net s.calls = NetResult.sendErr →
      fetchImagesLoop c net parse (fuel + 1) url imgs s
        = (CrawlResult.fetchErr,
           { calls := s.calls + 1, fs := s.fs,
             trace := s.trace
               ++ [⟨url, StepTag.pagination, c, c.followRedirects⟩] })) := by
  constructor
  · intro cfg c net index title url s hnet
    have hstep : ∀ s' : St, downloadOnce cfg c net index title url s'
        = (AttemptResult.errored,
           { calls := s'.calls + 1, fs := s'.fs,
             trace := s'.trace
               ++ [⟨url, StepTag.itemPage, c, c.followRedirects⟩] }) := by
      intro s'
      obtain ⟨status, loc, body, bo, hn⟩ := hnet s'.calls
      simp [downloadOnce, resolveStep, fetchVia, hn]
    refine ⟨{ calls := s.calls + 1 + 1 + 1, fs := s.fs,
              trace := s.trace
                ++ [⟨url, StepTag.itemPage, c, c.followRedirects⟩,
                    ⟨url, StepTag.itemPage, c, c.followRedirects⟩,
                    ⟨url, StepTag.itemPage, c, c.followRedirects⟩] }, ?_, ?_⟩
    · simp [downloadRetry, hstep]
    · simp [List.drop_left]
  · intro c net parse fuel url imgs s h
    simp [fetchImagesLoop, fetchVia, h]


/-- Witness for the amended C3 at concrete inputs. -/
theorem c3_amended_witness :
    (∃ s2, downloadRetry cfg0 (initClient cfg0) c3Net 0 "t" "https://e.x/i1"
        st0 = (AttemptResult.errored, s2) ∧
      (s2.trace.drop st0.trace.length).map (fun r => r.tag)
        = [StepTag.itemPage, StepTag.itemPage, StepTag.itemPage]) ∧
    fetchImagesLoop (initClient cfg0) c10Net parseAll 1 "https://e.x/g" [] st0
      = (CrawlResult.fetchErr,
         { calls := 1, fs := [],
           trace := [⟨"https://e.x/g", StepTag.pagination, initClient cfg0,
                      false⟩] }) := by
  constructor
  · exact c3_amended.1 cfg0 (initClient cfg0) c3Net 0 "t" "https://e.x/i1"
      st0 (fun n => ⟨200, none, emptyPage, false, rfl⟩)
  · exact c3_amended.2 (initClient cfg0) c10Net parseAll 0 "https://e.x/g"
      [] st0 rfl


/-- C2 amended: an item whose output file already exists at the computed
target path ends Skipped and issues no further network call — but the
resolution-step fetch of its item page has already been issued before the
existence check. Re-running over a gallery whose output files all exist
yields all-Skipped outcomes, leaves the disk unchanged and issues zero
download-step (asset) fetches: every request the loop adds to the trace is
an item-page fetch. -/
theorem c2_amended (cfg : Config) (c : Client) (net : Nat → NetResult)
    (title : String) (items : List String) :
    ∀ (index : Nat) (s : St),
      cfg.original = false →
      (∀ k, k < items.length →
        ∃ status loc body bo u,
          net (s.calls + k) = NetResult.resp status loc true body bo ∧
          body.previewSrc = some u ∧ u ≠ "" ∧
          fsHas s.fs (filePathOf cfg title (index + k) (extOf u)) = true) →
      ∃ t, runItems cfg c net title index items s
          = (List.replicate items.length ItemOutcome.skipped,
             { calls := s.calls + items.length, fs := s.fs,
               trace := s.trace ++ t }) ∧
        ∀ r ∈ t, r.tag = StepTag.itemPage := by
  induction items with
  | nil =>
    intro index s hor hres
    refine ⟨[], ?_, by simp⟩
    simp [runItems]
  | cons u0 rest ih =>
    intro index s hor hres
    obtain ⟨status, loc, body, bo, uprev, hnet, hprev, hne, hfs⟩ :=
      hres 0 (Nat.succ_pos _)
    rw [Nat.add_zero] at hnet
    rw [Nat.add_zero] at hfs
    have hone : downloadRetry cfg c net index title u0 s
        = (AttemptResult.okSkipped,
           { calls := s.calls + 1, fs := s.fs,
             trace := s.trace
               ++ [⟨u0, StepTag.itemPage, c, c.followRedirects⟩] }) := by
      simp [downloadRetry, downloadOnce, resolveStep, fetchVia, hnet, hor,
        hprev, hne, hfs]
    have hres2 : ∀ k, k < rest.length →
        ∃ status loc body bo u,
          net (s.calls + 1 + k) = NetResult.resp status loc true body bo ∧
          body.previewSrc = some u ∧ u ≠ "" ∧
          fsHas s.fs (filePathOf cfg title (index + 1 + k) (extOf u))
            = true := by
      intro k hk
      obtain ⟨a, b, d, e, u, h1, h2, h3, h4⟩ :=
        hres (k + 1) (Nat.succ_lt_succ hk)
      refine ⟨a, b, d, e, u, ?_, h2, h3, ?_⟩
      · rw [show s.calls + 1 + k = s.calls + (k + 1) from by omega]
        exact h1
      · rw [show index + 1 + k = index + (k + 1) from by omega]
        exact h4
    obtain ⟨t2, ht2, htag2⟩ := ih (index + 1)
      { calls := s.calls + 1, fs := s.fs,
        trace := s.trace ++ [⟨u0, StepTag.itemPage, c, c.followRedirects⟩] }
      hor hres2
    refine ⟨⟨u0, StepTag.itemPage, c, c.followRedirects⟩ :: t2, ?_, ?_⟩
    · simp only [runItems, hone, outcomeOf]
      rw [ht2]
      simp only [List.replicate, Prod.mk.injEq, St.mk.injEq,
        List.append_assoc, List.singleton_append, List.length_cons]
      exact ⟨trivial, by omega, trivial, trivial⟩
    · intro r hr
      rcases List.mem_cons.mp hr with hr | hr
      · subst hr
        rfl
      · exact htag2 r hr


/-- Witness for the amended C2: a two-item gallery whose output files both
exist re-runs to all-Skipped, leaves the disk unchanged and issues only
item-page requests. -/
theorem c2_amended_witness :
    ∃ t, runItems cfg0 (initClient cfg0) c2wNet "t" 0
        ["https://e.x/i1", "https://e.x/i2"] c2wSt
      = (List.replicate 2 ItemOutcome.skipped,
         { calls := 2, fs := ["out/t/1.jpg", "out/t/2.jpg"],
           trace := c2wSt.trace ++ t }) ∧
      ∀ r ∈ t, r.tag = StepTag.itemPage := by
  have h := c2_amended cfg0 (initClient cfg0) c2wNet "t"
      ["https://e.x/i1", "https://e.x/i2"] 0 c2wSt rfl ?_
  · exact h
  · intro k hk
    match k, hk with
    | 0, _ =>
      exact ⟨200, none, previewBody, true, "https://img.h/x.jpg", rfl, rfl,
        by decide, by decide⟩
    | 1, _ =>
      exact ⟨200, none, previewBody, true, "https://img.h/x.jpg", rfl, rfl,
        by decide, by decide⟩


end EhDl
